import Mathlib

/-!
Verification of the incremental change-detection pipeline of `notifwd`
(`src/notifwd.py`), a poller that watches the macOS notification store and
forwards new records to a push provider.

The store is modelled as the list of live rows ordered by `rec_id`
descending (most recent first), i.e. exactly the row sequence that the
source's SQL `ORDER BY rec_id DESC` reads.  Machine-level concerns
(sqlite, HTTP, plist decoding) are abstracted: a record carries its id,
its opaque payload, and its two timestamp columns; a provider response
carries status code, reason and body.
-/

/-- One row of the `record` table.  The source accesses columns by index:
`sql_data[0]` = `rec_id`, `sql_data[3]` = raw payload, `sql_data[4]` =
`request_date`, `sql_data[6]` = `delivered_date` (nullable). -/
structure StoreRecord where
  rec_id : Nat
  data : String
  request_date : Int
  delivered_date : Option Int
deriving Repr, DecidableEq

/-- An HTTP response from a provider, as used by `Notification.send`
(`response.status_code`, `response.reason`, `response.text`). -/
structure Response where
  status_code : Nat
  reason : String
  text : String
deriving Repr, DecidableEq

/-- The poller's cursor: the pair of class attributes
`Notification.last_id` / `Notification.last_date`.  `unset` models the
state in which `setup` never assigned them (empty store at startup); in
Python reading them then raises `AttributeError`.  `last_date` is an
`Option` because `setup` copies column 6 (`delivered_date`) verbatim,
which may be `None`. -/
inductive Cursor where
  | unset
  | mk (last_id : Nat) (last_date : Option Int)
deriving Repr, DecidableEq

/-- `Notification.get_notification_data(n)`:
`SELECT * FROM (SELECT * FROM record ORDER BY rec_id DESC LIMIT n+1)
 ORDER BY rec_id LIMIT 1` followed by `fetchone()`.
With the store listed most-recent-first, the inner query is `take (n+1)`
and the outer query picks the smallest `rec_id` of that window, i.e. its
last element; `fetchone()` yields `None` on an empty result. -/
def get_notification_data (store : List StoreRecord) (n : Nat) : Option StoreRecord :=
  (store.take (n + 1)).getLast?

/-- The effective timestamp used by `Notification.check`:
`sql_data[6] if sql_data[6] != None else sql_data[4]`. -/
def effective_date (r : StoreRecord) : Int :=
  match r.delivered_date with
  | some d => d
  | none => r.request_date

/-- The body of `Notification.send` after the provider call: a warning
line is printed exactly when `response.status_code != 200`; the method
never raises and returns nothing else. -/
def send_warning (resp : Response) : Option String :=
  if resp.status_code ≠ 200 then
    some ("Received unexpected status code " ++ toString resp.status_code ++ " "
      ++ resp.reason ++ " response:\n " ++ resp.text)
  else none

/-- Result of one call to `Notification.check`.  `sent` is the list of
dispatched records paired with the provider response each received, in
dispatch order.  `attrError` models the `AttributeError` raised when the
`while` condition reads a never-assigned `Notification.last_id`;
`typeError` models the `TypeError` of comparing a number with a `None`
`last_date`; `noneError` models subscripting a `None` row; `fuelOut`
means the loop was still running after the given number of iterations. -/
inductive CheckOutcome where
  | ok (sent : List (StoreRecord × Response)) (cursor : Cursor)
  | attrError
  | typeError (sent : List (StoreRecord × Response))
  | noneError (sent : List (StoreRecord × Response))
  | fuelOut (sent : List (StoreRecord × Response))
deriving Repr, DecidableEq

/-- The `while` loop of `Notification.check` (lines 194-198), with an
explicit iteration budget `fuel` since the source loop need not
terminate.  Each iteration fetches offset `n`; the loop continues while
`sql_data[0] != last_id and effective >= last_date`, sending the record
(via the provider, whose response `respond` determines) before moving to
offset `n+1`.  On normal exit the cursor is committed to the pair
`(newest_id, newest_date)` captured from offset 0 before the loop. -/
def checkLoop (store : List StoreRecord) (respond : StoreRecord → Response)
    (last_id : Nat) (last_date : Option Int) (newest_id : Nat) (newest_date : Int) :
    Nat → Nat → List (StoreRecord × Response) → CheckOutcome
  | 0, _, acc => CheckOutcome.fuelOut acc.reverse
  | fuel + 1, n, acc =>
    match get_notification_data store n with
    | none => CheckOutcome.noneError acc.reverse
    | some r =>
      if r.rec_id = last_id then
        CheckOutcome.ok acc.reverse (Cursor.mk newest_id (some newest_date))
      else
        match last_date with
        | none => CheckOutcome.typeError acc.reverse
        | some d =>
          if d ≤ effective_date r then
            checkLoop store respond last_id last_date newest_id newest_date
              fuel (n + 1) ((r, respond r) :: acc)
          else
            CheckOutcome.ok acc.reverse (Cursor.mk newest_id (some newest_date))

/-- `Notification.check` (lines 185-200).  If offset 0 is empty the body
is skipped entirely (no sends, cursor untouched).  Otherwise
`newest_id`/`newest_date` are captured from the offset-0 row and the
backward scan runs; if the cursor attributes were never assigned, the
first evaluation of the loop condition raises `AttributeError`. -/
def check (fuel : Nat) (store : List StoreRecord) (c : Cursor)
    (respond : StoreRecord → Response) : CheckOutcome :=
  match get_notification_data store 0 with
  | none => CheckOutcome.ok [] c
  | some r0 =>
    match c with
    | Cursor.unset => CheckOutcome.attrError
    | Cursor.mk last_id last_date =>
      checkLoop store respond last_id last_date r0.rec_id (effective_date r0) fuel 0 []

/-- The baseline capture of `Notification.setup` (lines 103-107): if the
store has a newest row, the cursor is set to `(row[0], row[6])` — note
column 6 verbatim, without the `request_date` fallback used in `check`;
otherwise the attributes are left unassigned. -/
def setup_cursor (store : List StoreRecord) : Cursor :=
  match get_notification_data store 0 with
  | some r => Cursor.mk r.rec_id r.delivered_date
  | none => Cursor.unset

/-- Dispatched records of an outcome, in dispatch order. -/
def sentLog : CheckOutcome → List (StoreRecord × Response)
  | CheckOutcome.ok s _ => s
  | CheckOutcome.attrError => []
  | CheckOutcome.typeError s => s
  | CheckOutcome.noneError s => s
  | CheckOutcome.fuelOut s => s

/-- Dispatched records, responses dropped. -/
def sentRecords (o : CheckOutcome) : List StoreRecord :=
  (sentLog o).map Prod.fst

/-- Whether the call came to an end (normally or by raising) within the
given fuel, as opposed to the loop still running. -/
def terminated : CheckOutcome → Bool
  | CheckOutcome.fuelOut _ => false
  | _ => true

/-- The response-independent part of an outcome: constructor, dispatched
records, final cursor. -/
inductive CheckShape where
  | ok (sent : List StoreRecord) (cursor : Cursor)
  | attrError
  | typeError (sent : List StoreRecord)
  | noneError (sent : List StoreRecord)
  | fuelOut (sent : List StoreRecord)
deriving Repr, DecidableEq

/-- Forget the provider responses of an outcome. -/
def shapeOf : CheckOutcome → CheckShape
  | CheckOutcome.ok s c => CheckShape.ok (s.map Prod.fst) c
  | CheckOutcome.attrError => CheckShape.attrError
  | CheckOutcome.typeError s => CheckShape.typeError (s.map Prod.fst)
  | CheckOutcome.noneError s => CheckShape.noneError (s.map Prod.fst)
  | CheckOutcome.fuelOut s => CheckShape.fuelOut (s.map Prod.fst)

/-- Command-line arguments after parsing, the fields `validate_args`
reads.  `provider` is `none` when the flag and environment variable are
both absent (the source's non-string case collapses to this, since both
are normalized to `"default"` identically). -/
structure Args where
  provider : Option String
  api_key : Option String
  user_key : Option String
  frequency : Int
deriving Repr, DecidableEq

/-- The closed set of provider classes. -/
inductive ProviderKind where
  | prowl
  | pushover
deriving Repr, DecidableEq

/-- The `PROVIDERS` table: `{"prowl": Prowl, "pushover": PushOver,
"default": Prowl}`, as a lookup returning the class selected. -/
def PROVIDERS (name : String) : Option ProviderKind :=
  if name = "prowl" then some ProviderKind.prowl
  else if name = "pushover" then some ProviderKind.pushover
  else if name = "default" then some ProviderKind.prowl
  else none

/-- `PushOver.validate_args`: raises when `api_key` is `None`, then when
`user_key` is `None`. -/
def PushOver_validate_args (a : Args) : Except String Unit :=
  if a.api_key = none then
    Except.error "no API key specified. Is $NOTIFWD_API_KEY defined?"
  else if a.user_key = none then
    Except.error "no USER key specified. Is $NOTIFWD_USER_KEY defined?"
  else Except.ok ()

/-- `Prowl.validate_args`: raises only when `api_key` is `None`. -/
def Prowl_validate_args (a : Args) : Except String Unit :=
  if a.api_key = none then
    Except.error "no API key specified. Is $NOTIFWD_API_KEY defined?"
  else Except.ok ()

/-- Python's `str.lower()`, character by character (the provider names
involved are ASCII). -/
def str_toLower (s : String) : String := String.mk (s.data.map Char.toLower)

/-- `Notification.validate_args` (lines 53-66): substitute `"default"`
for an absent provider name, lowercase it, substitute `"default"` again
when it is not a key of `PROVIDERS`, reject a non-positive frequency,
then delegate to the selected provider's own validation. -/
def Notification_validate_args (a : Args) : Except String ProviderKind :=
  let p0 := match a.provider with
    | none => "default"
    | some s => s
  let p1 := str_toLower p0
  let p2 := if PROVIDERS p1 = none then "default" else p1
  if a.frequency ≤ 0 then Except.error "frequency must be a positive integer."
  else
    match PROVIDERS p2 with
    | some ProviderKind.prowl => (Prowl_validate_args a).map (fun _ => ProviderKind.prowl)
    | some ProviderKind.pushover => (PushOver_validate_args a).map (fun _ => ProviderKind.pushover)
    | none => Except.error "KeyError"

/-- The configuration phase of `Notification.setup`: arguments are
validated (raising out of `setup` on failure) before the baseline cursor
is captured; polls only ever run on the state this returns. -/
def setup (a : Args) (store : List StoreRecord) : Except String (ProviderKind × Cursor) :=
  (Notification_validate_args a).map (fun k => (k, setup_cursor store))

/-- A provider that always answers 200 OK, for concrete runs. -/
def resp200 : StoreRecord → Response := fun _ => ⟨200, "OK", ""⟩

/-- Records for the ordering scenario: ids 1-3 are the baseline, 4-6 are
inserted afterwards; effective dates ascend with the id. -/
def R1 : StoreRecord := ⟨1, "p1", 10, none⟩

def R2 : StoreRecord := ⟨2, "p2", 20, none⟩

def R3 : StoreRecord := ⟨3, "p3", 30, none⟩

def R4 : StoreRecord := ⟨4, "p4", 40, none⟩

def R5 : StoreRecord := ⟨5, "p5", 50, none⟩

def R6 : StoreRecord := ⟨6, "p6", 0, some 60⟩

/-- The store after records 4, 5, 6 were inserted past baseline 1-3. -/
def store6 : List StoreRecord := [R6, R5, R4, R3, R2, R1]

/-- Cursor as captured when record 3 was the newest. -/
def c3 : Cursor := Cursor.mk 3 (some 30)

/-! ## General lemmas about the embedded operations -/

/-- On a one-row store, every offset query returns that row: the inner
`LIMIT n+1` never shrinks a single-row table. -/
theorem get_notification_data_singleton (r : StoreRecord) (n : Nat) :
    get_notification_data [r] n = some r := by
  simp [get_notification_data, List.take_succ_cons]

/-- Closed form of the offset query: it returns the row at position
`min n (length - 1)` of the descending-id ordering, hence is `none`
exactly on the empty store. -/
theorem get_notification_data_eq (store : List StoreRecord) (n : Nat) :
    get_notification_data store n = store[min n (store.length - 1)]? := by
  cases store with
  | nil => simp [get_notification_data]
  | cons a l =>
    show ((a :: l).take (n + 1)).getLast? = (a :: l)[min n ((a :: l).length - 1)]?
    rw [List.getLast?_eq_getElem?, List.length_take, List.getElem?_take]
    rw [if_pos (by simp; omega)]
    congr 1
    simp
    omega

/-- A normally-completed scan always commits the cursor to the pair
captured from offset 0 before the loop began. -/
theorem checkLoop_ok_cursor (store : List StoreRecord) (respond : StoreRecord → Response)
    (lid : Nat) (ld : Option Int) (ni : Nat) (nd : Int) :
    ∀ fuel n acc log cur,
      checkLoop store respond lid ld ni nd fuel n acc = CheckOutcome.ok log cur →
      cur = Cursor.mk ni (some nd) := by
  intro fuel
  induction fuel with
  | zero =>
    intro n acc log cur h
    simp [checkLoop] at h
  | succ fuel ih =>
    intro n acc log cur h
    rw [checkLoop] at h
    split at h
    · simp at h
    · split at h
      · rw [CheckOutcome.ok.injEq] at h
        exact h.2.symm
      · split at h
        · simp at h
        · split at h
          · exact ih _ _ _ _ h
          · rw [CheckOutcome.ok.injEq] at h
            exact h.2.symm

/-- The loop's control flow, dispatched records and final cursor do not
depend on the provider's responses: `check` never inspects the value
`send` returns. -/
theorem checkLoop_shape (store : List StoreRecord) (f g : StoreRecord → Response)
    (lid : Nat) (ld : Option Int) (ni : Nat) (nd : Int) :
    ∀ fuel n acc1 acc2, acc1.map Prod.fst = acc2.map Prod.fst →
      shapeOf (checkLoop store f lid ld ni nd fuel n acc1)
        = shapeOf (checkLoop store g lid ld ni nd fuel n acc2) := by
  intro fuel
  induction fuel with
  | zero =>
    intro n acc1 acc2 hacc
    simp [checkLoop, shapeOf, hacc]
  | succ fuel ih =>
    intro n acc1 acc2 hacc
    rw [checkLoop, checkLoop]
    cases hg : get_notification_data store n with
    | none => simp [shapeOf, hacc]
    | some r =>
      by_cases hid : r.rec_id = lid
      · simp [hid, shapeOf, hacc]
      · cases ld with
        | none => simp [hid, shapeOf, hacc]
        | some d =>
          by_cases hle : d ≤ effective_date r
          · simp only [hid, hle, if_true, if_false, reduceIte]
            exact ih (n + 1) _ _ (by simp [hacc])
          · simp [hid, hle, shapeOf, hacc]

/-- In a normally-completed scan the records dispatched after entering at
offset `n` are exactly the query results at offsets `n`, `n+1`, ... in
that order (appended to whatever was already accumulated). -/
theorem checkLoop_ok_offsets (store : List StoreRecord) (respond : StoreRecord → Response)
    (lid : Nat) (ld : Option Int) (ni : Nat) (nd : Int) :
    ∀ fuel n acc log cur,
      checkLoop store respond lid ld ni nd fuel n acc = CheckOutcome.ok log cur →
      ∃ t, log = acc.reverse ++ t ∧
        ∀ i, i < t.length → (t[i]?.map Prod.fst) = get_notification_data store (n + i) := by
  intro fuel
  induction fuel with
  | zero =>
    intro n acc log cur h
    simp [checkLoop] at h
  | succ fuel ih =>
    intro n acc log cur h
    rw [checkLoop] at h
    split at h
    · simp at h
    · rename_i r hg
      split at h
      · rw [CheckOutcome.ok.injEq] at h
        exact ⟨[], by simp [h.1.symm]⟩
      · split at h
        · simp at h
        · rename_i d
          split at h
          · obtain ⟨t', ht', hix⟩ := ih _ _ _ _ h
            refine ⟨(r, respond r) :: t', ?_, ?_⟩
            · rw [ht', List.reverse_cons, List.append_assoc]
              rfl
            · intro i hi
              cases i with
              | zero => simpa using hg.symm
              | succ j =>
                have h2 := hix j (by simpa using hi)
                have h3 : n + (j + 1) = (n + 1) + j := by omega
                rw [h3]
                simpa using h2
          · rw [CheckOutcome.ok.injEq] at h
            exact ⟨[], by simp [h.1.symm]⟩

/-- Every record a scan from cursor `(lid, some d)` ever dispatches —
whatever the outcome — passed the loop condition: its id differs from
`lid` and its effective timestamp is at least `d`. -/
theorem checkLoop_sent_guard (store : List StoreRecord) (respond : StoreRecord → Response)
    (lid : Nat) (d : Int) (ni : Nat) (nd : Int) :
    ∀ fuel n acc, (∀ e ∈ acc, e.1.rec_id ≠ lid ∧ d ≤ effective_date e.1) →
      ∀ e ∈ sentLog (checkLoop store respond lid (some d) ni nd fuel n acc),
        e.1.rec_id ≠ lid ∧ d ≤ effective_date e.1 := by
  intro fuel
  induction fuel with
  | zero =>
    intro n acc hacc e he
    rw [checkLoop] at he
    exact hacc e (by simpa [sentLog] using he)
  | succ fuel ih =>
    intro n acc hacc e he
    rw [checkLoop] at he
    split at he
    · exact hacc e (by simpa [sentLog] using he)
    · rename_i r hg
      split at he
      · exact hacc e (by simpa [sentLog] using he)
      · rename_i hid
        split at he
        · rename_i heq
          exact absurd heq (by simp)
        · rename_i d' hd'
          have hdd : d = d' := by injection hd'
          subst hdd
          split at he
          · rename_i hle
            refine ih (n + 1) _ ?_ e he
            intro e' he'
            rcases List.mem_cons.mp he' with h1 | h2
            · subst h1
              exact ⟨by simpa using hid, by simpa using hle⟩
            · exact hacc e' h2
          · exact hacc e (by simpa [sentLog] using he)

/-- The offset-0 query on a non-empty store returns its newest row. -/
theorem get_notification_data_zero (a : StoreRecord) (l : List StoreRecord) :
    get_notification_data (a :: l) 0 = some a := by
  simp [get_notification_data]

/-! ## C1: dispatch order -/

/-- The log of the `store6` poll from cursor `c3` under `resp200`. -/
def log6 : List (StoreRecord × Response) :=
  [(R6, ⟨200, "OK", ""⟩), (R5, ⟨200, "OK", ""⟩), (R4, ⟨200, "OK", ""⟩)]

/-- C1 counterexample: with the baseline cursor at record 3 and records
4, 5, 6 inserted before the next poll, the poll completes and dispatches
the records in the order 6, 5, 4 — newest first, not the claimed 4, 5, 6. -/
theorem C1_counterexample :
    check 10 store6 c3 resp200 = CheckOutcome.ok log6 (Cursor.mk 6 (some 60)) ∧
    sentRecords (check 10 store6 c3 resp200) = [R6, R5, R4] ∧
    sentRecords (check 10 store6 c3 resp200) ≠ [R4, R5, R6] :=
  ⟨by decide, by decide, by decide⟩

/-- C1 (amended): `check` dispatches each record the moment the backward
scan finds it, so in any poll that completes normally the i-th dispatched
record is the query result at offset i — dispatch order is newest first
(reverse chronological); no reversal happens before dispatch. -/
theorem C1_dispatch_order (fuel : Nat) (store : List StoreRecord) (c : Cursor)
    (respond : StoreRecord → Response) (log : List (StoreRecord × Response)) (cur : Cursor)
    (h : check fuel store c respond = CheckOutcome.ok log cur) :
    ∀ i, i < log.length → (log[i]?.map Prod.fst) = get_notification_data store i := by
  intro i hi
  unfold check at h
  split at h
  · rw [CheckOutcome.ok.injEq] at h
    rw [← h.1] at hi
    simp at hi
  · split at h
    · simp at h
    · obtain ⟨t, ht, hix⟩ := checkLoop_ok_offsets _ _ _ _ _ _ _ _ _ _ _ h
      rw [List.reverse_nil, List.nil_append] at ht
      subst ht
      simpa using hix i hi

/-- C1 witness: the first record dispatched in the concrete `store6` poll
is the offset-0 (newest) record. -/
theorem C1_dispatch_order_witness :
    (log6[0]?.map Prod.fst) = get_notification_data store6 0 :=
  C1_dispatch_order 10 store6 c3 resp200 log6 (Cursor.mk 6 (some 60)) (by decide) 0 (by decide)

/-! ## C2: termination of a poll -/

/-- A store whose records 1-3 were all deleted after the cursor was
captured at record 3, and where record 4 was inserted since. -/
def storeOnly4 : List StoreRecord := [⟨4, "p4", 10, none⟩]

/-- On `storeOnly4` every offset query returns record 4, so the backward
scan never meets its stop condition: whatever the fuel, the loop is still
running. -/
theorem checkLoop_only4 (respond : StoreRecord → Response) :
    ∀ fuel n acc,
      terminated (checkLoop storeOnly4 respond 3 (some 5) 4 10 fuel n acc) = false := by
  intro fuel
  induction fuel with
  | zero =>
    intro n acc
    simp [checkLoop, terminated]
  | succ fuel ih =>
    intro n acc
    rw [checkLoop]
    have hg : get_notification_data storeOnly4 n = some ⟨4, "p4", 10, none⟩ :=
      get_notification_data_singleton _ n
    rw [hg]
    norm_num [effective_date]
    exact ih _ _

/-- C2 (code bug): a poll is NOT guaranteed to terminate.  With the
cursor at the deleted record 3 (timestamp 5) and only the newer record 4
(timestamp 10) live, the offset query keeps returning record 4 instead of
an empty result, so the scan re-fetches and re-dispatches record 4
forever: no amount of fuel sees the call finish. -/
theorem C2_nontermination :
    ∀ fuel (respond : StoreRecord → Response),
      terminated (check fuel storeOnly4 (Cursor.mk 3 (some 5)) respond) = false := by
  intro fuel respond
  unfold check
  rw [show get_notification_data storeOnly4 0 = some ⟨4, "p4", 10, none⟩ from
    get_notification_data_singleton _ 0]
  exact checkLoop_only4 respond fuel 0 []

/-! ## C3: cursor commit -/

/-- The store after records 4 and 5 were deleted, leaving only the older
record 3, while the cursor still designates record 5. -/
def storeOld : List StoreRecord := [⟨3, "p3", 30, none⟩]

/-- C3 counterexample: from cursor (5, 50), polling the shrunk store
completes with no dispatches and moves the cursor to record 3 with
timestamp 30 — an older record than the one it designated. -/
theorem C3_counterexample :
    check 2 storeOld (Cursor.mk 5 (some 50)) resp200
      = CheckOutcome.ok [] (Cursor.mk 3 (some 30)) ∧ (30 : Int) < 50 :=
  ⟨by decide, by decide⟩

/-- C3 (amended): a poll that completes normally commits the cursor only
at the end, as an atomic pair, to the id and effective timestamp of the
offset-0 record present when the poll began (leaving it untouched when
the store is empty) — but that record need not be newer than the one the
cursor held: deletions can move the cursor to an older record. -/
theorem C3_cursor_commit (fuel : Nat) (store : List StoreRecord) (c : Cursor)
    (respond : StoreRecord → Response) (log : List (StoreRecord × Response)) (cur : Cursor)
    (h : check fuel store c respond = CheckOutcome.ok log cur) :
    (get_notification_data store 0 = none ∧ log = [] ∧ cur = c) ∨
    (∃ r0, get_notification_data store 0 = some r0 ∧
      cur = Cursor.mk r0.rec_id (some (effective_date r0))) := by
  unfold check at h
  split at h
  · rename_i hg
    rw [CheckOutcome.ok.injEq] at h
    exact Or.inl ⟨hg, h.1.symm, h.2.symm⟩
  · rename_i r0 hg
    split at h
    · simp at h
    · exact Or.inr ⟨r0, hg, checkLoop_ok_cursor _ _ _ _ _ _ _ _ _ _ _ h⟩

/-- C3 witness: the concrete `store6` poll commits the cursor to the pair
of its newest record. -/
theorem C3_cursor_commit_witness :
    (get_notification_data store6 0 = none ∧ log6 = [] ∧ Cursor.mk 6 (some 60) = c3) ∨
    (∃ r0, get_notification_data store6 0 = some r0 ∧
      Cursor.mk 6 (some 60) = Cursor.mk r0.rec_id (some (effective_date r0))) :=
  C3_cursor_commit 10 store6 c3 resp200 log6 (Cursor.mk 6 (some 60)) (by decide)

/-! ## C4: the offset query -/

/-- The baseline store of records 1-3, newest first. -/
def store3 : List StoreRecord := [R3, R2, R1]

/-- C4 counterexample: offset 5 on a three-row store does not come back
absent — it returns the oldest row, record 1. -/
theorem C4_counterexample :
    store3.length ≤ 5 ∧ get_notification_data store3 5 = some R1 ∧
    get_notification_data store3 5 ≠ none :=
  ⟨by decide, by decide, by decide⟩

/-- C4 (amended): on a store of m live rows (listed newest first) the
offset query returns the row at rank min(n, m-1) — the rank-n row when
n < m, but the oldest row when n ≥ m ≥ 1; it is absent exactly when the
store is entirely empty. -/
theorem C4_offset_query (store : List StoreRecord) (n : Nat) :
    get_notification_data store n = store[min n (store.length - 1)]? ∧
    (get_notification_data store n = none ↔ store = []) := by
  refine ⟨get_notification_data_eq store n, ?_⟩
  cases store with
  | nil => simp [get_notification_data]
  | cons a l =>
    rw [get_notification_data_eq]
    constructor
    · intro h
      exfalso
      rw [List.getElem?_eq_none_iff] at h
      simp at h
    · intro h
      simp at h

/-! ## C5: baseline suppression -/

/-- Baseline record 3; records 2 and 3 share effective timestamp 15. -/
def B3 : StoreRecord := ⟨3, "b3", 15, some 15⟩

/-- Baseline record 2, same effective timestamp as record 3. -/
def B2 : StoreRecord := ⟨2, "b2", 15, some 15⟩

/-- Baseline record 1, strictly older. -/
def B1 : StoreRecord := ⟨1, "b1", 5, some 5⟩

/-- The store at startup. -/
def baselineStore : List StoreRecord := [B3, B2, B1]

/-- The store after the user dismisses record 3. -/
def afterDismiss : List StoreRecord := [B2, B1]

/-- C5 counterexample: baseline is captured on [3,2,1]; record 3 is then
dismissed.  The next poll completes and dispatches record 2, a record
that was already present at baseline capture, because its effective
timestamp ties the deleted baseline record's. -/
theorem C5_counterexample :
    setup_cursor baselineStore = Cursor.mk 3 (some 15) ∧
    sentRecords (check 5 afterDismiss (setup_cursor baselineStore) resp200) = [B2] ∧
    B2 ∈ baselineStore :=
  ⟨by decide, by decide, by decide⟩

/-- C5 (amended): the cursor is initialized at startup from the current
newest record, and a poll from cursor (lid, d) only dispatches records
whose id differs from lid and whose effective timestamp is at least d —
so baseline records strictly older than the baseline timestamp are never
dispatched; a baseline record whose effective timestamp ties the
baseline's can however be re-dispatched once the baseline record is
deleted. -/
theorem C5_baseline_guard :
    (∀ (a : StoreRecord) (l : List StoreRecord),
      setup_cursor (a :: l) = Cursor.mk a.rec_id a.delivered_date) ∧
    (∀ fuel (store : List StoreRecord) (lid : Nat) (d : Int)
        (respond : StoreRecord → Response) (r : StoreRecord),
      r ∈ sentRecords (check fuel store (Cursor.mk lid (some d)) respond) →
      r.rec_id ≠ lid ∧ d ≤ effective_date r) := by
  constructor
  · intro a l
    unfold setup_cursor
    rw [get_notification_data_zero]
  · intro fuel store lid d respond r hr
    unfold sentRecords at hr
    obtain ⟨e, he, rfl⟩ := List.mem_map.mp hr
    revert he
    unfold check
    split
    · intro he
      simp [sentLog] at he
    · intro he
      exact checkLoop_sent_guard store respond lid d _ _ fuel 0 [] (by simp) e he

/-- C5 witness: record 2 dispatched by the `afterDismiss` poll indeed
differs in id from the cursor id 3 and has effective timestamp ≥ 15. -/
theorem C5_baseline_guard_witness :
    B2.rec_id ≠ 3 ∧ (15 : Int) ≤ effective_date B2 :=
  C5_baseline_guard.2 5 afterDismiss 3 15 resp200 B2 (by decide)

/-! ## C6: idempotence on an unchanged store -/

/-- C6 (confirmed): once a poll completes normally, polling the unchanged
store again dispatches nothing: the newest record's id now equals the
cursor id, so the scan stops at offset 0 (and on an empty store nothing
was dispatched to begin with).  The cursor is left exactly where the
first poll put it. -/
theorem C6_idempotent (fuel1 fuel2 : Nat) (store : List StoreRecord) (c : Cursor)
    (f g : StoreRecord → Response) (log : List (StoreRecord × Response)) (cur : Cursor)
    (h : check fuel1 store c f = CheckOutcome.ok log cur) :
    check (fuel2 + 1) store cur g = CheckOutcome.ok [] cur := by
  cases store with
  | nil =>
    unfold check
    rw [show get_notification_data [] 0 = none from rfl]
  | cons a l =>
    have hcur : cur = Cursor.mk a.rec_id (some (effective_date a)) := by
      unfold check at h
      rw [get_notification_data_zero] at h
      cases c with
      | unset => simp at h
      | mk lid ld => exact checkLoop_ok_cursor _ _ _ _ _ _ _ _ _ _ _ h
    subst hcur
    show checkLoop (a :: l) g a.rec_id (some (effective_date a)) a.rec_id (effective_date a)
        (fuel2 + 1) 0 [] = CheckOutcome.ok [] (Cursor.mk a.rec_id (some (effective_date a)))
    rw [checkLoop, get_notification_data_zero]
    simp

/-- C6 witness: after the `store6` poll committed cursor (6, 60), an
immediate re-poll of `store6` dispatches nothing. -/
theorem C6_idempotent_witness :
    check 1 store6 (Cursor.mk 6 (some 60)) resp200
      = CheckOutcome.ok [] (Cursor.mk 6 (some 60)) :=
  C6_idempotent 10 0 store6 c3 resp200 resp200 log6 (Cursor.mk 6 (some 60)) (by decide)

/-! ## C7: empty store at startup -/

/-- C7 (code bug): with an empty store at startup the cursor indeed stays
unset, but the first later poll that finds a record raises
`AttributeError` (the never-assigned `Notification.last_id` is read by
the loop condition) and dispatches nothing, instead of treating every
record as new. -/
theorem C7_attr_error :
    setup_cursor ([] : List StoreRecord) = Cursor.unset ∧
    check 5 [⟨1, "p1", 10, none⟩] Cursor.unset resp200 = CheckOutcome.attrError ∧
    sentRecords (check 5 [⟨1, "p1", 10, none⟩] Cursor.unset resp200) = [] :=
  ⟨by decide, by decide, by decide⟩

/-! ## C8: delivery outcome classification -/

/-- C8 (confirmed): `send` treats a 200 response as success (no warning)
and logs any other status as a delivery failure without raising; the
poll never inspects the response, so control flow, dispatched records
and the committed cursor are identical whatever statuses the provider
returns — a failed send is non-fatal, the scan continues past it, the
cursor still advances, and nothing is retried. -/
theorem C8_delivery_classification :
    (∀ resp : Response, send_warning resp = none ↔ resp.status_code = 200) ∧
    (∀ fuel (store : List StoreRecord) (c : Cursor) (f g : StoreRecord → Response),
      shapeOf (check fuel store c f) = shapeOf (check fuel store c g)) := by
  constructor
  · intro resp
    unfold send_warning
    by_cases hs : resp.status_code = 200
    · simp [hs]
    · simp [hs]
  · intro fuel store c f g
    unfold check
    split
    · rfl
    · cases c with
      | unset => rfl
      | mk lid ld => exact checkLoop_shape store f g lid ld _ _ fuel 0 [] [] rfl

/-! ## C9: credential gating at configuration time -/

/-- C9 (confirmed): credentials are validated while configuring, before
any poll state exists: selecting PushOver, a missing API key or a
missing user key makes `setup` fail with a non-empty (descriptive) error
and no cursor is ever produced, while Prowl validates successfully from
an API key alone. -/
theorem C9_credential_gating :
    (∀ a : Args, a.api_key = none ∨ a.user_key = none →
      ∃ m, PushOver_validate_args a = Except.error m ∧ m ≠ "") ∧
    (∀ a : Args, a.api_key ≠ none → Prowl_validate_args a = Except.ok ()) ∧
    (∀ (a : Args) (store : List StoreRecord),
      a.provider = some "pushover" → 0 < a.frequency →
      a.api_key = none ∨ a.user_key = none →
      ∃ m, setup a store = Except.error m ∧ m ≠ "") := by
  have hpush : ∀ a : Args, a.api_key = none ∨ a.user_key = none →
      ∃ m, PushOver_validate_args a = Except.error m ∧ m ≠ "" := by
    intro a h
    unfold PushOver_validate_args
    by_cases h1 : a.api_key = none
    · exact ⟨_, by rw [if_pos h1], by decide⟩
    · have h2 : a.user_key = none := h.resolve_left h1
      exact ⟨_, by rw [if_neg h1, if_pos h2], by decide⟩
  refine ⟨hpush, ?_, ?_⟩
  · intro a h
    unfold Prowl_validate_args
    rw [if_neg h]
  · intro a store hp hf hkeys
    obtain ⟨m, hm, hm0⟩ := hpush a hkeys
    refine ⟨m, ?_, hm0⟩
    unfold setup Notification_validate_args
    rw [hp]
    have hlow : str_toLower "pushover" = "pushover" := by decide
    simp only [hlow]
    have hprov : PROVIDERS "pushover" = some ProviderKind.pushover := by decide
    rw [if_neg (by omega : ¬ a.frequency ≤ 0)]
    simp only [hprov, hm]
    rfl

/-- C9 witness: a concrete PushOver configuration with an API key but no
user key fails setup with a non-empty message. -/
theorem C9_credential_gating_witness :
    ∃ m, setup ⟨some "pushover", some "k", none, 60⟩ ([] : List StoreRecord)
      = Except.error m ∧ m ≠ "" :=
  C9_credential_gating.2.2 ⟨some "pushover", some "k", none, 60⟩ []
    (by decide) (by decide) (Or.inr (by decide))

/-! ## C10: unknown provider names fall back to the default -/

/-- C10 (confirmed): when the provider name is absent or, after
lowercasing, is not a key of the PROVIDERS table, configuration silently
substitutes "default" — which maps to Prowl — and proceeds to validate
Prowl's credentials; no unknown-provider error is ever reported (the
absent and non-string cases coincide in this embedding, both being
normalized to "default"). -/
theorem C10_default_fallback (a : Args)
    (hp : a.provider = none ∨ ∃ s, a.provider = some s ∧ PROVIDERS (str_toLower s) = none)
    (hf : 0 < a.frequency) (hk : a.api_key ≠ none) :
    Notification_validate_args a = Except.ok ProviderKind.prowl := by
  have hfreq : ¬ a.frequency ≤ 0 := by omega
  have hprowl : Prowl_validate_args a = Except.ok () := by
    unfold Prowl_validate_args
    rw [if_neg hk]
  rcases hp with h | ⟨s, hs, hnone⟩
  · unfold Notification_validate_args
    rw [h]
    dsimp only
    have h1 : (if PROVIDERS (str_toLower "default") = none then "default"
        else str_toLower "default") = "default" := by decide
    rw [h1, if_neg hfreq,
      show PROVIDERS "default" = some ProviderKind.prowl from by decide, hprowl]
    rfl
  · unfold Notification_validate_args
    rw [hs]
    dsimp only
    have h1 : (if PROVIDERS (str_toLower s) = none then "default"
        else str_toLower s) = "default" := by rw [if_pos hnone]
    rw [h1, if_neg hfreq,
      show PROVIDERS "default" = some ProviderKind.prowl from by decide, hprowl]
    rfl

/-- C10 witness: the unknown provider name "bogus" with an API key and a
positive frequency configures successfully as Prowl. -/
theorem C10_default_fallback_witness :
    Notification_validate_args ⟨some "bogus", some "k", none, 60⟩
      = Except.ok ProviderKind.prowl :=
  C10_default_fallback ⟨some "bogus", some "k", none, 60⟩
    (Or.inr ⟨"bogus", rfl, by decide⟩) (by decide) (by decide)
